import Mathlib

/-!
Verification of the GSTP (Gordian Sealed Transaction Protocol) library:
a shallow embedding of `continuation.rs`, `sealed_request.rs`,
`sealed_response.rs`, `sealed_event.rs` and `error.rs`, followed by
theorems about continuations, sealed requests, sealed responses and
sealed events.

Modelling conventions:
- `ARID` and key material are modelled as `Nat` (a public key and its
  private counterpart are identified, so "decrypting with the correct
  key" is equality of the two numbers).
- `Date` is modelled as `Int` (seconds); the only operation the code
  performs on dates is strict comparison.
- Gordian envelopes are modelled by the inductive `Env`, which records
  exactly the envelope operations the crate uses: wrapping, assertions
  on a subject, hybrid encryption to one or many recipients, and
  signing (`sign` wraps the envelope and attaches a `'signed'`
  assertion, as `bc-envelope` does; `encrypt_to_recipient` /
  `decrypt_to_recipient` are modelled as an inverse constructor pair,
  matching the wrap-encrypt / decrypt-unwrap composite of
  `bc-envelope`).
- Rust `Result<T, Error>` is `Except Error T`; the `?` operator is the
  explicit error-propagating `match`.
- The `panic!` in `SealedResponse::with_state` is modelled by an
  `Option` result where `none` is the panic outcome.
-/

namespace GSTP

/-- Known-value code for the `'id'` predicate. -/
def kvID : Nat := 1

/-- Known-value code for the `'validUntil'` predicate. -/
def kvValidUntil : Nat := 2

/-- Known-value code for the `'sender'` predicate. -/
def kvSender : Nat := 3

/-- Known-value code for the `'senderContinuation'` predicate. -/
def kvSenderContinuation : Nat := 4

/-- Known-value code for the `'recipientContinuation'` predicate. -/
def kvRecipientContinuation : Nat := 5

/-- Known-value code for the `'signed'` predicate. -/
def kvSigned : Nat := 6

/-- The error type of the crate, from `error.rs`.  The two transparent
wrappers for `bc_envelope::Error` and `bc_xid::Error` are modelled as
the opaque variants `envelope` and `xid`. -/
inductive Error : Type where
  | senderMissingEncryptionKey : Error
  | recipientMissingEncryptionKey : Error
  | senderMissingVerificationKey : Error
  | continuationExpired : Error
  | continuationIdInvalid : Error
  | peerContinuationNotEncrypted : Error
  | missingPeerContinuation : Error
  | envelope : Error
  | xid : Error
deriving DecidableEq, Repr

/-- An XID identity document, reduced to the two queries the crate
performs on it: `encryption_key()` and `verification_key()`. -/
structure XIDDocument : Type where
  encryption_key : Option Nat
  verification_key : Option Nat
deriving DecidableEq, Repr

/-- A `Request` payload (`bc-envelope`'s `Request`), reduced to the
fields the crate observes: the function and the request id (ARID). -/
structure Request : Type where
  function : Nat
  id : Nat
deriving DecidableEq, Repr

/-- A `Response` payload (`bc-envelope`'s `Response`), reduced to what
the crate observes: the optional id (absent for early failures) and
the success flag queried by `is_ok()`. -/
structure Response : Type where
  id : Option Nat
  isOk : Bool
deriving DecidableEq, Repr

/-- An `Event` payload (`bc-envelope`'s `Event<T>`), reduced to its id
and an opaque content. -/
structure Event : Type where
  content : Nat
  id : Nat
deriving DecidableEq, Repr

/-- Gordian envelopes, restricted to the shapes the crate constructs
and inspects.  `node s as` is a subject `s` carrying the assertion
list `as` (predicate known-value code paired with object envelope). -/
inductive Env : Type where
  | null : Env
  | leaf : Nat → Env
  | aridLeaf : Nat → Env
  | dateLeaf : Int → Env
  | sigLeaf : Nat → Env
  | xidLeaf : XIDDocument → Env
  | requestLeaf : Request → Env
  | responseLeaf : Response → Env
  | eventLeaf : Event → Env
  | wrapped : Env → Env
  | encryptedTo : Nat → Env → Env
  | encryptedToMany : List Nat → Env → Env
  | node : Env → List (Nat × Env) → Env

/-- The subject of an envelope: a `node` exposes its subject, any
other envelope is its own subject. -/
def subjectOf : Env → Env
  | .node s _ => s
  | e => e

/-- The assertion list of an envelope (empty unless it is a `node`). -/
def assertionsOf : Env → List (Nat × Env)
  | .node _ as => as
  | _ => []

/-- `add_assertion`: attach a predicate/object pair, turning a bare
subject into a `node`. -/
def addAssertion (p : Nat) (o : Env) (e : Env) : Env :=
  match e with
  | .node s as => .node s (as ++ [(p, o)])
  | _ => .node e [(p, o)]

/-- `add_optional_assertion`: a no-op when the object is absent. -/
def addOptionalAssertion (p : Nat) (o : Option Env) (e : Env) : Env :=
  match o with
  | some v => addAssertion p v e
  | none => e

/-- `remove_assertion`, specialised to removing every assertion with
the given predicate (the crate's tests strip a single uniquely
occurring assertion, which coincides with this). -/
def removeAssertion (p : Nat) : Env → Env
  | .node s as => .node s (as.filter (fun a => a.1 ≠ p))
  | e => e

/-- `is_encrypted`: true exactly on ciphertext envelopes. -/
def isEncrypted : Env → Bool
  | .encryptedTo _ _ => true
  | .encryptedToMany _ _ => true
  | _ => false

/-- `is_null`. -/
def isNull : Env → Bool
  | .null => true
  | _ => false

/-- One `true` per assertion with the given predicate. -/
def hasAssertion (e : Env) (p : Nat) : Bool :=
  (assertionsOf e).any (fun a => decide (a.1 = p))

/-- The recipient keys an outer encryption was wrapped to (used to
state the multi-recipient property). -/
def wrappedKeys : Env → List Nat
  | .encryptedTo k _ => [k]
  | .encryptedToMany ks _ => ks
  | _ => []

/-- `wrap_envelope` / `wrap`. -/
def wrapEnvelope (e : Env) : Env := .wrapped e

/-- `unwrap_envelope` / `try_unwrap`: succeeds when the subject is a
wrapped envelope. -/
def unwrapEnvelope (e : Env) : Except Error Env :=
  match subjectOf e with
  | .wrapped inner => .ok inner
  | _ => .error .envelope

/-- `encrypt_to_recipient`: the wrap-and-encrypt-subject composite of
`bc-envelope`, modelled as a single inverse pair with
`decryptToRecipient`. -/
def encryptToRecipient (e : Env) (k : Nat) : Env := .encryptedTo k e

/-- `encrypt_subject_to_recipients` applied after `wrap`: one outer
ciphertext carrying one wrapping per recipient key. -/
def encryptToRecipients (e : Env) (ks : List Nat) : Env := .encryptedToMany ks e

/-- `decrypt_to_recipient`: succeeds exactly when the private key
matches one of the keys the envelope was encrypted to, and returns
the envelope that was encrypted. -/
def decryptToRecipient (privateKey : Nat) (e : Env) : Except Error Env :=
  match e with
  | .encryptedTo k inner =>
    if k = privateKey then .ok inner else .error .envelope
  | .encryptedToMany ks inner =>
    if privateKey ∈ ks then .ok inner else .error .envelope
  | _ => .error .envelope

/-- `sign`: wrap the envelope and attach a `'signed'` assertion whose
object records the signing key. -/
def signEnv (k : Nat) (e : Env) : Env :=
  addAssertion kvSigned (.sigLeaf k) (.wrapped e)

/-- All assertion objects for a predicate. -/
def objectsForPredicate (e : Env) (p : Nat) : List Env :=
  (assertionsOf e).filterMap (fun a => if a.1 = p then some a.2 else none)

/-- `optional_object_for_predicate`: `none` when the predicate is
absent, an error when it is ambiguous. -/
def optionalObjectForPredicate (e : Env) (p : Nat) : Except Error (Option Env) :=
  match objectsForPredicate e p with
  | [] => .ok none
  | [o] => .ok (some o)
  | _ => .error .envelope

/-- `object_for_predicate`: exactly one object required. -/
def objectForPredicate (e : Env) (p : Nat) : Except Error Env :=
  match objectsForPredicate e p with
  | [o] => .ok o
  | _ => .error .envelope

/-- `verify`: check the `'signed'` assertion against the expected
verification key and return the unwrapped (signed-over) envelope. -/
def verifyEnv (vk : Nat) (e : Env) : Except Error Env :=
  match objectForPredicate e kvSigned with
  | .ok (.sigLeaf k) => if k = vk then unwrapEnvelope e else .error .envelope
  | .ok _ => .error .envelope
  | .error err => .error err

/-- Extraction of an optional `ARID` object
(`extract_optional_object_for_predicate::<ARID>`). -/
def extractOptionalARID (e : Env) (p : Nat) : Except Error (Option Nat) :=
  match optionalObjectForPredicate e p with
  | .ok none => .ok none
  | .ok (some (.aridLeaf a)) => .ok (some a)
  | .ok (some _) => .error .envelope
  | .error err => .error err

/-- Extraction of an optional `Date` object
(`extract_optional_object_for_predicate::<Date>`). -/
def extractOptionalDate (e : Env) (p : Nat) : Except Error (Option Int) :=
  match optionalObjectForPredicate e p with
  | .ok none => .ok none
  | .ok (some (.dateLeaf d)) => .ok (some d)
  | .ok (some _) => .error .envelope
  | .error err => .error err

/-- `XIDDocument::try_from(envelope)`. -/
def xidFromEnvelope (e : Env) : Except Error XIDDocument :=
  match e with
  | .xidLeaf d => .ok d
  | _ => .error .xid

/-- `Request::try_from(envelope)`: recover the request payload from
the subject, ignoring the protocol-level assertions. -/
def Request.tryFromEnvelope (e : Env) : Except Error Request :=
  match subjectOf e with
  | .requestLeaf r => .ok r
  | _ => .error .envelope

/-- `Response::try_from(envelope)`. -/
def Response.tryFromEnvelope (e : Env) : Except Error Response :=
  match subjectOf e with
  | .responseLeaf r => .ok r
  | _ => .error .envelope

/-- `Response::new_success(id)`. -/
def Response.new_success (id : Nat) : Response := ⟨some id, true⟩

/-- `Response::new_failure(id)`. -/
def Response.new_failure (id : Nat) : Response := ⟨some id, false⟩

/-- `Response::new_early_failure()`: no id, not successful. -/
def Response.new_early_failure : Response := ⟨none, false⟩

/-- A state continuation, from `continuation.rs`: an opaque state
envelope, an optional bound request id and an optional expiry. -/
structure Continuation : Type where
  state : Env
  valid_id : Option Nat
  valid_until : Option Int

/-- `Continuation::new(state)`. -/
def Continuation.new (state : Env) : Continuation :=
  ⟨state, none, none⟩

/-- `Continuation::with_valid_id`. -/
def Continuation.with_valid_id (c : Continuation) (valid_id : Nat) : Continuation :=
  { c with valid_id := some valid_id }

/-- `Continuation::with_optional_valid_id`: a no-op on `none`. -/
def Continuation.with_optional_valid_id (c : Continuation) (valid_id : Option Nat) : Continuation :=
  match valid_id with
  | some v => c.with_valid_id v
  | none => c

/-- `Continuation::with_valid_until`. -/
def Continuation.with_valid_until (c : Continuation) (valid_until : Int) : Continuation :=
  { c with valid_until := some valid_until }

/-- `Continuation::with_optional_valid_until`: a no-op on `none`. -/
def Continuation.with_optional_valid_until (c : Continuation) (valid_until : Option Int) : Continuation :=
  match valid_until with
  | some v => c.with_valid_until v
  | none => c

/-- `Continuation::is_valid_date(now)`: trivially true without a
`now`; otherwise true when `valid_until` is absent or strictly after
`now`. -/
def Continuation.is_valid_date (c : Continuation) (now : Option Int) : Bool :=
  match now with
  | some now =>
    match c.valid_until with
    | some valid_until => decide (now < valid_until)
    | none => true
  | none => true

/-- `Continuation::is_valid_id(id)`: trivially true without an
expected id; otherwise true when `valid_id` is absent or equal to the
expected id. -/
def Continuation.is_valid_id (c : Continuation) (id : Option Nat) : Bool :=
  match id with
  | some expected_id =>
    match c.valid_id with
    | some i => decide (i = expected_id)
    | none => true
  | none => true

/-- `Continuation::is_valid(now, id)`. -/
def Continuation.is_valid (c : Continuation) (now : Option Int) (id : Option Nat) : Bool :=
  c.is_valid_date now && c.is_valid_id id

/-- `Continuation::to_envelope(sender)`: wrap the state, attach the
optional `'id'` and `'validUntil'` assertions, and encrypt to the
sender's own key when one is supplied. -/
def Continuation.to_envelope (c : Continuation) (sender : Option Nat) : Env :=
  let result :=
    addOptionalAssertion kvValidUntil (c.valid_until.map Env.dateLeaf)
      (addOptionalAssertion kvID (c.valid_id.map Env.aridLeaf)
        (wrapEnvelope c.state))
  match sender with
  | some k => encryptToRecipient result k
  | none => result

/-- `Continuation::try_from_envelope(encrypted_envelope, id, now,
recipient)`: optionally decrypt, unwrap the state, read the optional
`'id'` and `'validUntil'` assertions, then run the date check (failing
with `ContinuationExpired`) before the id check (failing with
`ContinuationIdInvalid`). -/
def Continuation.try_from_envelope (encrypted_envelope : Env) (id : Option Nat)
    (now : Option Int) (recipient : Option Nat) : Except Error Continuation :=
  match (match recipient with
         | some r => decryptToRecipient r encrypted_envelope
         | none => .ok encrypted_envelope) with
  | .error e => .error e
  | .ok envelope =>
  match unwrapEnvelope envelope with
  | .error e => .error e
  | .ok state =>
  match extractOptionalARID envelope kvID with
  | .error e => .error e
  | .ok valid_id =>
  match extractOptionalDate envelope kvValidUntil with
  | .error e => .error e
  | .ok valid_until =>
  let continuation : Continuation := ⟨state, valid_id, valid_until⟩
  if continuation.is_valid_date now = false then
    .error .continuationExpired
  else if continuation.is_valid_id id = false then
    .error .continuationIdInvalid
  else
    .ok continuation

/-- A sealed request, from `sealed_request.rs`. -/
structure SealedRequest : Type where
  request : Request
  sender : XIDDocument
  state : Option Env
  peer_continuation : Option Env

/-- `SealedRequest::new(function, id, sender)`. -/
def SealedRequest.new (function : Nat) (id : Nat) (sender : XIDDocument) : SealedRequest :=
  ⟨⟨function, id⟩, sender, none, none⟩

/-- `SealedRequest::with_state`. -/
def SealedRequest.with_state (sr : SealedRequest) (state : Env) : SealedRequest :=
  { sr with state := some state }

/-- `SealedRequest::with_optional_state`. -/
def SealedRequest.with_optional_state (sr : SealedRequest) (state : Option Env) : SealedRequest :=
  { sr with state := state }

/-- `SealedRequest::with_peer_continuation`. -/
def SealedRequest.with_peer_continuation (sr : SealedRequest) (pc : Env) : SealedRequest :=
  { sr with peer_continuation := some pc }

/-- `SealedRequest::to_envelope(valid_until, sender, recipient)`: a
request always carries a sender continuation — its state is the null
envelope when absent — bound to the request id, with the optional
expiry from the argument, self-encrypted to the sender's encryption
key.  The request envelope then gets the `'sender'`,
`'senderContinuation'` and optional `'recipientContinuation'`
assertions, is optionally signed, and is optionally encrypted to the
recipient's encryption key. -/
def SealedRequest.to_envelope (sr : SealedRequest) (valid_until : Option Int)
    (sender : Option Nat) (recipient : Option XIDDocument) : Except Error Env :=
  let state := sr.state.getD Env.null
  let continuation :=
    ((Continuation.new state).with_valid_id sr.request.id).with_optional_valid_until valid_until
  match sr.sender.encryption_key with
  | none => .error .senderMissingEncryptionKey
  | some sender_encryption_key =>
  let sender_continuation := continuation.to_envelope (some sender_encryption_key)
  let result :=
    addOptionalAssertion kvRecipientContinuation sr.peer_continuation
      (addAssertion kvSenderContinuation sender_continuation
        (addAssertion kvSender (.xidLeaf sr.sender)
          (.requestLeaf sr.request)))
  let result :=
    match sender with
    | some sender_private_key => signEnv sender_private_key result
    | none => result
  match recipient with
  | some recipient =>
    match recipient.encryption_key with
    | some recipient_encryption_key =>
      .ok (encryptToRecipient result recipient_encryption_key)
    | none => .error .recipientMissingEncryptionKey
  | none => .ok result

/-- `SealedRequest::try_from_envelope(encrypted_envelope, id, now,
recipient)`: decrypt, read the sender document from the signed
subject, verify the signature, require an encrypted
`'senderContinuation'` (else `MissingPeerContinuation` /
`PeerContinuationNotEncrypted`), decrypt and validate the optional
`'recipientContinuation'` keeping only its inner state, and
reconstruct the request. -/
def SealedRequest.try_from_envelope (encrypted_envelope : Env) (id : Option Nat)
    (now : Option Int) (recipient : Nat) : Except Error SealedRequest :=
  match decryptToRecipient recipient encrypted_envelope with
  | .error e => .error e
  | .ok signed_envelope =>
  match unwrapEnvelope signed_envelope with
  | .error e => .error e
  | .ok unwrapped =>
  match objectForPredicate unwrapped kvSender with
  | .error e => .error e
  | .ok sender_envelope =>
  match xidFromEnvelope sender_envelope with
  | .error e => .error e
  | .ok sender =>
  match sender.verification_key with
  | none => .error .senderMissingVerificationKey
  | some sender_verification_key =>
  match verifyEnv sender_verification_key signed_envelope with
  | .error e => .error e
  | .ok request_envelope =>
  match optionalObjectForPredicate request_envelope kvSenderContinuation with
  | .error e => .error e
  | .ok peer_continuation =>
  match ((match peer_continuation with
         | some some_peer_continuation =>
           if isEncrypted (subjectOf some_peer_continuation) = false then
             .error Error.peerContinuationNotEncrypted
           else .ok ()
         | none => .error Error.missingPeerContinuation) : Except Error Unit) with
  | .error e => .error e
  | .ok () =>
  match optionalObjectForPredicate request_envelope kvRecipientContinuation with
  | .error e => .error e
  | .ok encrypted_continuation =>
  match ((match encrypted_continuation with
         | some encrypted_continuation =>
           match Continuation.try_from_envelope encrypted_continuation id now (some recipient) with
           | .error e => .error e
           | .ok continuation => .ok (some continuation.state)
         | none => .ok none) : Except Error (Option Env)) with
  | .error e => .error e
  | .ok state =>
  match Request.tryFromEnvelope request_envelope with
  | .error e => .error e
  | .ok request =>
  .ok ⟨request, sender, state, peer_continuation⟩

/-- A sealed response, from `sealed_response.rs`. -/
structure SealedResponse : Type where
  response : Response
  sender : XIDDocument
  state : Option Env
  peer_continuation : Option Env

/-- `SealedResponse::new_success(id, sender)`. -/
def SealedResponse.new_success (id : Nat) (sender : XIDDocument) : SealedResponse :=
  ⟨Response.new_success id, sender, none, none⟩

/-- `SealedResponse::new_failure(id, sender)`. -/
def SealedResponse.new_failure (id : Nat) (sender : XIDDocument) : SealedResponse :=
  ⟨Response.new_failure id, sender, none, none⟩

/-- `SealedResponse::new_early_failure(sender)`. -/
def SealedResponse.new_early_failure (sender : XIDDocument) : SealedResponse :=
  ⟨Response.new_early_failure, sender, none, none⟩

/-- `SealedResponse::with_state`: sets the state on a successful
response; on a failure response the Rust code panics ("Cannot set
state on a failed response"), modelled here by the `none` outcome. -/
def SealedResponse.with_state (sr : SealedResponse) (state : Env) : Option SealedResponse :=
  if sr.response.isOk then
    some { sr with state := some state }
  else
    none

/-- `SealedResponse::with_optional_state`: `some state` delegates to
`with_state` (and can therefore panic on failure responses); `none`
clears the state unconditionally, bypassing the `is_ok` check. -/
def SealedResponse.with_optional_state (sr : SealedResponse) (state : Option Env) :
    Option SealedResponse :=
  match state with
  | some state => sr.with_state state
  | none => some { sr with state := none }

/-- `SealedResponse::with_peer_continuation`. -/
def SealedResponse.with_peer_continuation (sr : SealedResponse) (pc : Option Env) : SealedResponse :=
  { sr with peer_continuation := pc }

/-- `SealedResponse::to_envelope(valid_until, sender, recipient)`: a
sender continuation is built only when `state` is present (the
optional expiry is attached to it, and the sender's encryption key is
required only in that branch); then the `'sender'`, optional
`'senderContinuation'` and optional `'recipientContinuation'`
assertions, optional signature and optional outer encryption. -/
def SealedResponse.to_envelope (sr : SealedResponse) (valid_until : Option Int)
    (sender : Option Nat) (recipient : Option XIDDocument) : Except Error Env :=
  match ((match sr.state with
         | some state =>
           match sr.sender.encryption_key with
           | some sender_encryption_key =>
             .ok (some (((Continuation.new state).with_optional_valid_until valid_until).to_envelope
               (some sender_encryption_key)))
           | none => .error Error.senderMissingEncryptionKey
         | none => .ok none) : Except Error (Option Env)) with
  | .error e => .error e
  | .ok sender_continuation =>
  let result :=
    addOptionalAssertion kvRecipientContinuation sr.peer_continuation
      (addOptionalAssertion kvSenderContinuation sender_continuation
        (addAssertion kvSender (.xidLeaf sr.sender)
          (.responseLeaf sr.response)))
  let result :=
    match sender with
    | some sender_private_key => signEnv sender_private_key result
    | none => result
  match recipient with
  | some recipient =>
    match recipient.encryption_key with
    | some recipient_encryption_key =>
      .ok (encryptToRecipient result recipient_encryption_key)
    | none => .error .recipientMissingEncryptionKey
  | none => .ok result

/-- `SealedResponse::try_from_encrypted_envelope(encrypted_envelope,
expected_id, now, recipient_private_key)`: like the request parser,
except that the `'senderContinuation'` may be absent, and the inner
state of the decrypted `'recipientContinuation'` has the null sentinel
collapsed to "no state". -/
def SealedResponse.try_from_encrypted_envelope (encrypted_envelope : Env)
    (expected_id : Option Nat) (now : Option Int) (recipient_private_key : Nat) :
    Except Error SealedResponse :=
  match decryptToRecipient recipient_private_key encrypted_envelope with
  | .error e => .error e
  | .ok signed_envelope =>
  match unwrapEnvelope signed_envelope with
  | .error e => .error e
  | .ok unwrapped =>
  match objectForPredicate unwrapped kvSender with
  | .error e => .error e
  | .ok sender_envelope =>
  match xidFromEnvelope sender_envelope with
  | .error e => .error e
  | .ok sender =>
  match sender.verification_key with
  | none => .error .senderMissingVerificationKey
  | some sender_verification_key =>
  match verifyEnv sender_verification_key signed_envelope with
  | .error e => .error e
  | .ok response_envelope =>
  match optionalObjectForPredicate response_envelope kvSenderContinuation with
  | .error e => .error e
  | .ok peer_continuation =>
  match ((match peer_continuation with
         | some some_peer_continuation =>
           if isEncrypted (subjectOf some_peer_continuation) = false then
             .error Error.peerContinuationNotEncrypted
           else .ok ()
         | none => .ok ()) : Except Error Unit) with
  | .error e => .error e
  | .ok () =>
  match optionalObjectForPredicate response_envelope kvRecipientContinuation with
  | .error e => .error e
  | .ok encrypted_continuation =>
  match ((match encrypted_continuation with
         | some encrypted_continuation =>
           match Continuation.try_from_envelope encrypted_continuation expected_id now
               (some recipient_private_key) with
           | .error e => .error e
           | .ok continuation =>
             if isNull continuation.state then .ok none
             else .ok (some continuation.state)
         | none => .ok none) : Except Error (Option Env)) with
  | .error e => .error e
  | .ok state =>
  match Response.tryFromEnvelope response_envelope with
  | .error e => .error e
  | .ok response =>
  .ok ⟨response, sender, state, peer_continuation⟩

/-- A sealed event, from `sealed_event.rs`. -/
structure SealedEvent : Type where
  event : Event
  sender : XIDDocument
  state : Option Env
  peer_continuation : Option Env

/-- `SealedEvent::new(content, id, sender)`. -/
def SealedEvent.new (content : Nat) (id : Nat) (sender : XIDDocument) : SealedEvent :=
  ⟨⟨content, id⟩, sender, none, none⟩

/-- `SealedEvent::with_state`. -/
def SealedEvent.with_state (se : SealedEvent) (state : Env) : SealedEvent :=
  { se with state := some state }

/-- The per-recipient encryption-key lookup performed by
`to_envelope_for_recipients`: every recipient must expose an
encryption key, else `RecipientMissingEncryptionKey`. -/
def recipientEncryptionKeys (recipients : List XIDDocument) : Except Error (List Nat) :=
  match recipients with
  | [] => .ok []
  | r :: rest =>
    match r.encryption_key with
    | none => .error .recipientMissingEncryptionKey
    | some k =>
      match recipientEncryptionKeys rest with
      | .error e => .error e
      | .ok ks => .ok (k :: ks)

/-- `SealedEvent::to_envelope_for_recipients(valid_until, sender,
recipients)`: the sender's encryption key is demanded up front; a
sender continuation is emitted when `state` is present, or — wrapping
the null envelope — when only `valid_until` is provided; the event
envelope gets the `'sender'`, optional `'senderContinuation'` and
optional `'recipientContinuation'` assertions, is optionally signed,
and, when the recipient list is non-empty, is wrapped once and
encrypted with one wrapping per recipient key. -/
def SealedEvent.to_envelope_for_recipients (se : SealedEvent) (valid_until : Option Int)
    (sender : Option Nat) (recipients : List XIDDocument) : Except Error Env :=
  match se.sender.encryption_key with
  | none => .error .senderMissingEncryptionKey
  | some sender_encryption_key =>
  let sender_continuation : Option Env :=
    match se.state with
    | some state =>
      some (((Continuation.new state).with_optional_valid_until valid_until).to_envelope
        (some sender_encryption_key))
    | none =>
      valid_until.map (fun valid_until =>
        ((Continuation.new Env.null).with_valid_until valid_until).to_envelope
          (some sender_encryption_key))
  let result :=
    addOptionalAssertion kvRecipientContinuation se.peer_continuation
      (addOptionalAssertion kvSenderContinuation sender_continuation
        (addAssertion kvSender (.xidLeaf se.sender)
          (.eventLeaf se.event)))
  let result :=
    match sender with
    | some sender_private_key => signEnv sender_private_key result
    | none => result
  if recipients.isEmpty then
    .ok result
  else
    match recipientEncryptionKeys recipients with
    | .error e => .error e
    | .ok recipient_keys => .ok (encryptToRecipients result recipient_keys)

/-- `SealedEvent::to_envelope(valid_until, sender, recipient)`:
zero-or-one recipient, delegating to the list version. -/
def SealedEvent.to_envelope (se : SealedEvent) (valid_until : Option Int)
    (sender : Option Nat) (recipient : Option XIDDocument) : Except Error Env :=
  se.to_envelope_for_recipients valid_until sender recipient.toList

/-! ## Shared lemmas -/

/-- Parsing the envelope a continuation serializes to (optionally
through the self-encryption leg with the matching key) reconstructs
the continuation, subject to the date check and then the id check. -/
lemma parse_to_envelope_aux (c : Continuation) (expected : Option Nat)
    (now : Option Int) (k : Option Nat) :
    Continuation.try_from_envelope (c.to_envelope k) expected now k =
      (if c.is_valid_date now = false then .error .continuationExpired
       else if c.is_valid_id expected = false then .error .continuationIdInvalid
       else .ok c) := by
  obtain ⟨s, vid, vu⟩ := c
  cases k with
  | none => cases vid <;> cases vu <;> rfl
  | some key =>
    cases vid <;> cases vu <;>
      simp [Continuation.to_envelope, Continuation.try_from_envelope,
        encryptToRecipient, decryptToRecipient, unwrapEnvelope, subjectOf,
        extractOptionalARID, extractOptionalDate, optionalObjectForPredicate,
        objectsForPredicate, assertionsOf, addOptionalAssertion, addAssertion,
        wrapEnvelope, kvID, kvValidUntil]

/-! ## Claims -/

/-- C2: `is_valid_date` passes trivially without a `now`, and with a
`now` it passes exactly when `valid_until` is absent or strictly
later; `is_valid_id` passes trivially without an expected id, and with
one it passes exactly when `valid_id` is absent or equal to it;
`is_valid` is the conjunction of the two checks. -/
theorem continuation_validity_rules :
    (∀ c : Continuation, c.is_valid_date none = true)
    ∧ (∀ (c : Continuation) (now : Int),
        c.is_valid_date (some now) = true ↔
          (c.valid_until = none ∨ ∃ vu, c.valid_until = some vu ∧ now < vu))
    ∧ (∀ c : Continuation, c.is_valid_id none = true)
    ∧ (∀ (c : Continuation) (expected : Nat),
        c.is_valid_id (some expected) = true ↔
          (c.valid_id = none ∨ c.valid_id = some expected))
    ∧ (∀ (c : Continuation) (now : Option Int) (expected : Option Nat),
        c.is_valid now expected = (c.is_valid_date now && c.is_valid_id expected)) := by
  refine ⟨fun c => rfl, ?_, fun c => rfl, ?_, fun c now expected => rfl⟩
  · intro c now
    cases h : c.valid_until <;> simp [Continuation.is_valid_date, h]
  · intro c expected
    cases h : c.valid_id <;> simp [Continuation.is_valid_id, h]

/-- C3: parsing the cleartext envelope of any continuation, with the
continuation's own `valid_id` as the expected id, no `now` and no
key, returns the continuation itself; and continuation equality is
exactly fieldwise equality of `state`, `valid_id` and `valid_until`. -/
theorem continuation_cleartext_roundtrip :
    (∀ c : Continuation,
      Continuation.try_from_envelope (c.to_envelope none) c.valid_id none none =
        .ok c)
    ∧ (∀ c1 c2 : Continuation,
        c1 = c2 ↔
          (c1.state = c2.state ∧ c1.valid_id = c2.valid_id ∧
            c1.valid_until = c2.valid_until)) := by
  constructor
  · intro c
    rw [parse_to_envelope_aux]
    cases h : c.valid_id <;>
      simp [Continuation.is_valid_date, Continuation.is_valid_id, h]
  · intro c1 c2
    obtain ⟨s1, i1, u1⟩ := c1
    obtain ⟨s2, i2, u2⟩ := c2
    simp

/-- C6: parsing a serialized continuation runs the date check first —
failing with `ContinuationExpired` whenever a `now` is supplied,
`valid_until` is present and `valid_until ≤ now`, even if the id check
would also fail — then the id check, failing with
`ContinuationIdInvalid` when an expected id is supplied, `valid_id` is
present and they differ; when both pass the reconstructed continuation
is returned. -/
theorem continuation_parse_error_order :
    ∀ (c : Continuation) (expected : Option Nat) (now : Option Int) (k : Option Nat),
      Continuation.try_from_envelope (c.to_envelope k) expected now k =
        (if c.is_valid_date now = false then .error .continuationExpired
         else if c.is_valid_id expected = false then .error .continuationIdInvalid
         else .ok c) :=
  fun c expected now k => parse_to_envelope_aux c expected now k

/-- C1: every envelope a `SealedRequest` serializes to carries a
`'senderContinuation'` assertion — even without state, in which case
the continuation wraps the null envelope — whose `valid_id` is the
request id and whose `valid_until` is the argument; parsing that
envelope back with the correct recipient key succeeds; and parsing
the same envelope with the `'senderContinuation'` assertion removed
fails with `MissingPeerContinuation`. -/
theorem request_continuation_mandatory
    (sr : SealedRequest) (vu : Option Int) (sk vk rk : Nat) (recip : XIDDocument)
    (hek : sr.sender.encryption_key = some sk)
    (hvk : sr.sender.verification_key = some vk)
    (hrk : recip.encryption_key = some rk)
    (hpc : sr.peer_continuation = none) :
    ∃ inner : Env,
      sr.to_envelope vu (some vk) (some recip) =
        .ok (encryptToRecipient (signEnv vk inner) rk)
      ∧ objectsForPredicate inner kvSenderContinuation =
          [(Continuation.mk (sr.state.getD Env.null) (some sr.request.id) vu).to_envelope (some sk)]
      ∧ SealedRequest.try_from_envelope (encryptToRecipient (signEnv vk inner) rk)
          none none rk =
          .ok ⟨sr.request, sr.sender, none,
            some ((Continuation.mk (sr.state.getD Env.null) (some sr.request.id) vu).to_envelope
              (some sk))⟩
      ∧ SealedRequest.try_from_envelope
          (encryptToRecipient (signEnv vk (removeAssertion kvSenderContinuation inner)) rk)
          none none rk = .error Error.missingPeerContinuation := by
  obtain ⟨req, sender, st, pc⟩ := sr
  simp only at hek hvk hpc
  subst hpc
  refine ⟨Env.node (.requestLeaf req)
    [(kvSender, .xidLeaf sender),
     (kvSenderContinuation,
       (Continuation.mk (st.getD Env.null) (some req.id) vu).to_envelope (some sk))],
    ?_, ?_, ?_, ?_⟩
  · cases vu <;>
      simp [SealedRequest.to_envelope, hek, hrk, Continuation.new,
        Continuation.with_valid_id, Continuation.with_optional_valid_until,
        Continuation.with_valid_until, addOptionalAssertion, addAssertion]
  · simp [objectsForPredicate, assertionsOf, kvSender, kvSenderContinuation]
  · cases hst : st.getD Env.null <;>
      cases hvu : vu <;>
      simp [SealedRequest.try_from_envelope, encryptToRecipient, signEnv,
        decryptToRecipient, unwrapEnvelope, subjectOf, addAssertion,
        objectForPredicate, optionalObjectForPredicate, objectsForPredicate,
        assertionsOf, xidFromEnvelope, hvk, verifyEnv, isEncrypted,
        Continuation.to_envelope, wrapEnvelope, addOptionalAssertion,
        Request.tryFromEnvelope, kvSender, kvSenderContinuation,
        kvRecipientContinuation, kvSigned, kvID, kvValidUntil]
  · cases hst : st.getD Env.null <;>
      cases hvu : vu <;>
      simp [SealedRequest.try_from_envelope, encryptToRecipient, signEnv,
        removeAssertion, decryptToRecipient, unwrapEnvelope, subjectOf,
        addAssertion, objectForPredicate, optionalObjectForPredicate,
        objectsForPredicate, assertionsOf, xidFromEnvelope, hvk, verifyEnv,
        isEncrypted, Continuation.to_envelope, wrapEnvelope,
        addOptionalAssertion, Request.tryFromEnvelope, kvSender,
        kvSenderContinuation, kvRecipientContinuation, kvSigned, kvID,
        kvValidUntil]

/-- Witness for C1 at concrete inputs. -/
theorem request_continuation_mandatory_witness :
    ((⟨⟨0, 7⟩, ⟨some 11, some 12⟩, none, none⟩ : SealedRequest).sender.encryption_key = some 11)
    ∧ ((⟨⟨0, 7⟩, ⟨some 11, some 12⟩, none, none⟩ : SealedRequest).sender.verification_key = some 12)
    ∧ ((⟨some 13, none⟩ : XIDDocument).encryption_key = some 13)
    ∧ ((⟨⟨0, 7⟩, ⟨some 11, some 12⟩, none, none⟩ : SealedRequest).peer_continuation = none)
    ∧ (∃ inner : Env,
        (⟨⟨0, 7⟩, ⟨some 11, some 12⟩, none, none⟩ : SealedRequest).to_envelope (some 5)
            (some 12) (some ⟨some 13, none⟩) =
          .ok (encryptToRecipient (signEnv 12 inner) 13)
        ∧ objectsForPredicate inner kvSenderContinuation =
            [(Continuation.mk
                ((⟨⟨0, 7⟩, ⟨some 11, some 12⟩, none, none⟩ : SealedRequest).state.getD Env.null)
                (some (⟨⟨0, 7⟩, ⟨some 11, some 12⟩, none, none⟩ : SealedRequest).request.id)
                (some 5)).to_envelope (some 11)]
        ∧ SealedRequest.try_from_envelope (encryptToRecipient (signEnv 12 inner) 13)
            none none 13 =
            .ok ⟨(⟨⟨0, 7⟩, ⟨some 11, some 12⟩, none, none⟩ : SealedRequest).request,
              (⟨⟨0, 7⟩, ⟨some 11, some 12⟩, none, none⟩ : SealedRequest).sender, none,
              some ((Continuation.mk
                ((⟨⟨0, 7⟩, ⟨some 11, some 12⟩, none, none⟩ : SealedRequest).state.getD Env.null)
                (some (⟨⟨0, 7⟩, ⟨some 11, some 12⟩, none, none⟩ : SealedRequest).request.id)
                (some 5)).to_envelope (some 11))⟩
        ∧ SealedRequest.try_from_envelope
            (encryptToRecipient (signEnv 12 (removeAssertion kvSenderContinuation inner)) 13)
            none none 13 = .error Error.missingPeerContinuation) :=
  ⟨rfl, rfl, rfl, rfl,
    request_continuation_mandatory ⟨⟨0, 7⟩, ⟨some 11, some 12⟩, none, none⟩ (some 5)
      11 12 13 ⟨some 13, none⟩ rfl rfl rfl rfl⟩

/-- C4 counterexample: a `SealedResponse` with no state but a
`valid_until` argument emits no `'senderContinuation'` assertion,
although the claim requires one whenever state is present or a
`valid_until` is provided. -/
theorem response_continuation_emission_counterexample :
    (SealedResponse.to_envelope ⟨Response.new_success 1, ⟨some 5, some 6⟩, none, none⟩
        (some 10) none none).map (fun e => hasAssertion e kvSenderContinuation) =
      .ok false
    ∧ (Except.ok false : Except Error Bool) ≠ .ok true :=
  ⟨rfl, by simp⟩

/-- C4 amended: a `SealedEvent` emits a `'senderContinuation'`
assertion iff state is present or a `valid_until` is provided, but a
`SealedResponse` emits one iff state is present — a `valid_until`
alone emits none. -/
theorem sender_continuation_emission_amended :
    (∀ (se : SealedEvent) (vu : Option Int) (sk : Nat),
      se.sender.encryption_key = some sk →
      (se.to_envelope_for_recipients vu none []).map
          (fun e => hasAssertion e kvSenderContinuation) =
        .ok (se.state.isSome || vu.isSome))
    ∧ (∀ (sr : SealedResponse) (vu : Option Int) (sk : Nat),
      sr.sender.encryption_key = some sk →
      (sr.to_envelope vu none none).map
          (fun e => hasAssertion e kvSenderContinuation) =
        .ok sr.state.isSome) := by
  constructor
  · intro se vu sk hek
    obtain ⟨ev, sender, st, pc⟩ := se
    simp only at hek
    cases st <;> cases vu <;> cases pc <;>
      simp [SealedEvent.to_envelope_for_recipients, hek, hasAssertion,
        assertionsOf, addOptionalAssertion, addAssertion, kvSender,
        kvSenderContinuation, kvRecipientContinuation, Except.map]
  · intro sr vu sk hek
    obtain ⟨resp, sender, st, pc⟩ := sr
    simp only at hek
    cases st <;> cases vu <;> cases pc <;>
      simp [SealedResponse.to_envelope, hek, hasAssertion, assertionsOf,
        addOptionalAssertion, addAssertion, kvSender, kvSenderContinuation,
        kvRecipientContinuation, Except.map]

/-- Witness for the amended C4 at concrete inputs. -/
theorem sender_continuation_emission_amended_witness :
    ((⟨⟨1, 2⟩, ⟨some 5, some 6⟩, none, none⟩ : SealedEvent).sender.encryption_key = some 5)
    ∧ ((⟨⟨1, 2⟩, ⟨some 5, some 6⟩, none, none⟩ : SealedEvent).to_envelope_for_recipients
          (some 3) none []).map (fun e => hasAssertion e kvSenderContinuation) =
        .ok ((⟨⟨1, 2⟩, ⟨some 5, some 6⟩, none, none⟩ : SealedEvent).state.isSome ||
          (some (3 : Int)).isSome)
    ∧ ((⟨Response.new_success 1, ⟨some 5, some 6⟩, none, none⟩ :
          SealedResponse).sender.encryption_key = some 5)
    ∧ ((⟨Response.new_success 1, ⟨some 5, some 6⟩, none, none⟩ : SealedResponse).to_envelope
          (some 3) none none).map (fun e => hasAssertion e kvSenderContinuation) =
        .ok (⟨Response.new_success 1, ⟨some 5, some 6⟩, none, none⟩ :
          SealedResponse).state.isSome :=
  ⟨rfl,
    sender_continuation_emission_amended.1 ⟨⟨1, 2⟩, ⟨some 5, some 6⟩, none, none⟩ (some 3) 5 rfl,
    rfl,
    sender_continuation_emission_amended.2 ⟨Response.new_success 1, ⟨some 5, some 6⟩, none, none⟩
      (some 3) 5 rfl⟩

/-- C5 counterexample: a request whose `'recipientContinuation'`
decrypts to a continuation wrapping the null envelope parses to
`state = some Env.null`, not `state = none` — the request parser does
not unwrap the null sentinel. -/
theorem request_null_state_counterexample :
    ((SealedRequest.to_envelope
        ⟨⟨0, 1⟩, ⟨some 5, some 6⟩, none,
          some ((Continuation.mk Env.null none none).to_envelope (some 9))⟩
        none (some 6) (some ⟨some 9, none⟩)).bind
      (fun wire => SealedRequest.try_from_envelope wire none none 9)).map
        (fun sr => sr.state) =
      .ok (some Env.null)
    ∧ (Except.ok (some Env.null) : Except Error (Option Env)) ≠ .ok none :=
  ⟨rfl, by simp⟩

/-- C5 amended: when a `'recipientContinuation'` is present it is
decrypted with the recipient key and validated, and only its inner
state is kept — but the null sentinel is unwrapped to "no state" only
by `SealedResponse::try_from_encrypted_envelope`;
`SealedRequest::try_from_envelope` keeps the inner state as-is, so a
null-state continuation yields `state = some Env.null` there. -/
theorem recipient_continuation_state_amended :
    (∀ (r : Request) (sender recip : XIDDocument) (st : Option Env) (cst : Env)
       (vu cvu : Option Int) (sk vk rk : Nat),
      sender.encryption_key = some sk →
      sender.verification_key = some vk →
      recip.encryption_key = some rk →
      ((SealedRequest.to_envelope
          ⟨r, sender, st, some ((Continuation.mk cst none cvu).to_envelope (some rk))⟩
          vu (some vk) (some recip)).bind
        (fun wire => SealedRequest.try_from_envelope wire none none rk)).map
          (fun sr => sr.state) =
        .ok (some cst))
    ∧ (∀ (resp : Response) (sender recip : XIDDocument) (cst : Env)
       (vu cvu : Option Int) (sk vk rk : Nat),
      sender.encryption_key = some sk →
      sender.verification_key = some vk →
      recip.encryption_key = some rk →
      ((SealedResponse.to_envelope
          ⟨resp, sender, none, some ((Continuation.mk cst none cvu).to_envelope (some rk))⟩
          vu (some vk) (some recip)).bind
        (fun wire => SealedResponse.try_from_encrypted_envelope wire none none rk)).map
          (fun sr => sr.state) =
        .ok (if isNull cst then none else some cst)) := by
  constructor
  · intro r sender recip st cst vu cvu sk vk rk hek hvk hrk
    cases st <;> cases vu <;> cases cvu <;>
      simp [SealedRequest.to_envelope, SealedRequest.try_from_envelope, hek, hvk, hrk,
        Continuation.new, Continuation.with_valid_id, Continuation.with_valid_until,
        Continuation.with_optional_valid_until, Continuation.to_envelope,
        Continuation.try_from_envelope, encryptToRecipient, decryptToRecipient,
        signEnv, verifyEnv, unwrapEnvelope, subjectOf, isEncrypted, wrapEnvelope,
        addAssertion, addOptionalAssertion, objectForPredicate,
        optionalObjectForPredicate, objectsForPredicate, assertionsOf,
        xidFromEnvelope, extractOptionalARID, extractOptionalDate,
        Request.tryFromEnvelope, Continuation.is_valid_date, Continuation.is_valid_id,
        Except.map, Except.bind, kvID, kvValidUntil, kvSender,
        kvSenderContinuation, kvRecipientContinuation, kvSigned]
  · intro resp sender recip cst vu cvu sk vk rk hek hvk hrk
    cases hn : isNull cst <;> cases vu <;> cases cvu <;>
      simp [hn, SealedResponse.to_envelope, SealedResponse.try_from_encrypted_envelope,
        hek, hvk, hrk, Continuation.new, Continuation.with_valid_until,
        Continuation.with_optional_valid_until, Continuation.to_envelope,
        Continuation.try_from_envelope, encryptToRecipient, decryptToRecipient,
        signEnv, verifyEnv, unwrapEnvelope, subjectOf, isEncrypted, wrapEnvelope,
        addAssertion, addOptionalAssertion, objectForPredicate,
        optionalObjectForPredicate, objectsForPredicate, assertionsOf,
        xidFromEnvelope, extractOptionalARID, extractOptionalDate,
        Response.tryFromEnvelope, Continuation.is_valid_date, Continuation.is_valid_id,
        Except.map, Except.bind, kvID, kvValidUntil, kvSender,
        kvSenderContinuation, kvRecipientContinuation, kvSigned]

/-- Witness for the amended C5 at concrete inputs. -/
theorem recipient_continuation_state_amended_witness :
    ((⟨some 5, some 6⟩ : XIDDocument).encryption_key = some 5)
    ∧ ((⟨some 5, some 6⟩ : XIDDocument).verification_key = some 6)
    ∧ ((⟨some 9, none⟩ : XIDDocument).encryption_key = some 9)
    ∧ ((SealedRequest.to_envelope
          ⟨⟨0, 1⟩, ⟨some 5, some 6⟩, none,
            some ((Continuation.mk (Env.leaf 7) none none).to_envelope (some 9))⟩
          none (some 6) (some ⟨some 9, none⟩)).bind
        (fun wire => SealedRequest.try_from_envelope wire none none 9)).map
          (fun sr => sr.state) =
        .ok (some (Env.leaf 7))
    ∧ ((SealedResponse.to_envelope
          ⟨Response.new_success 1, ⟨some 5, some 6⟩, none,
            some ((Continuation.mk (Env.leaf 7) none none).to_envelope (some 9))⟩
          none (some 6) (some ⟨some 9, none⟩)).bind
        (fun wire => SealedResponse.try_from_encrypted_envelope wire none none 9)).map
          (fun sr => sr.state) =
        .ok (if isNull (Env.leaf 7) then none else some (Env.leaf 7)) :=
  ⟨rfl, rfl, rfl,
    recipient_continuation_state_amended.1 ⟨0, 1⟩ ⟨some 5, some 6⟩ ⟨some 9, none⟩
      none (Env.leaf 7) none none 5 6 9 rfl rfl rfl,
    recipient_continuation_state_amended.2 (Response.new_success 1) ⟨some 5, some 6⟩
      ⟨some 9, none⟩ (Env.leaf 7) none none 5 6 9 rfl rfl rfl⟩

/-- C7 counterexample: a `SealedEvent` with no state and no
`valid_until`, whose sender has no encryption key, does not serialize
successfully — `to_envelope` and `to_envelope_for_recipients` fail
with `SenderMissingEncryptionKey`, because the key is demanded before
deciding whether a continuation is needed. -/
theorem event_missing_encryption_key_counterexample :
    SealedEvent.to_envelope_for_recipients ⟨⟨1, 2⟩, ⟨none, some 6⟩, none, none⟩
        none (some 6) [] = .error .senderMissingEncryptionKey
    ∧ SealedEvent.to_envelope ⟨⟨1, 2⟩, ⟨none, some 6⟩, none, none⟩
        none (some 6) none = .error .senderMissingEncryptionKey
    ∧ (SealedEvent.to_envelope_for_recipients ⟨⟨1, 2⟩, ⟨none, some 6⟩, none, none⟩
        none (some 6) []).isOk = false :=
  ⟨rfl, rfl, rfl⟩

/-- C7 amended: `SealedEvent` serialization demands the sender
encryption key unconditionally, failing with
`SenderMissingEncryptionKey` whenever it is absent even if no sender
continuation would be emitted; `SealedResponse::to_envelope` with no
state, by contrast, succeeds without a sender encryption key. -/
theorem sender_encryption_key_requirement_amended :
    (∀ (se : SealedEvent) (vu : Option Int) (sg : Option Nat)
       (recipients : List XIDDocument),
      se.sender.encryption_key = none →
      se.to_envelope_for_recipients vu sg recipients =
        .error .senderMissingEncryptionKey)
    ∧ (∀ (sr : SealedResponse) (vu : Option Int) (sg : Option Nat),
      sr.state = none →
      (sr.to_envelope vu sg none).isOk = true) := by
  constructor
  · intro se vu sg recipients hek
    obtain ⟨ev, sender, st, pc⟩ := se
    simp only at hek
    simp [SealedEvent.to_envelope_for_recipients, hek]
  · intro sr vu sg hst
    obtain ⟨resp, sender, st, pc⟩ := sr
    simp only at hst
    subst hst
    cases sg <;> simp [SealedResponse.to_envelope, Except.isOk, Except.toBool]

/-- Witness for the amended C7 at concrete inputs. -/
theorem sender_encryption_key_requirement_amended_witness :
    ((⟨⟨1, 2⟩, ⟨none, some 6⟩, none, none⟩ : SealedEvent).sender.encryption_key = none)
    ∧ SealedEvent.to_envelope_for_recipients ⟨⟨1, 2⟩, ⟨none, some 6⟩, none, none⟩
        none none [] = .error .senderMissingEncryptionKey
    ∧ ((⟨Response.new_success 1, ⟨none, some 6⟩, none, none⟩ : SealedResponse).state = none)
    ∧ ((⟨Response.new_success 1, ⟨none, some 6⟩, none, none⟩ : SealedResponse).to_envelope
        none none none).isOk = true :=
  ⟨rfl,
    sender_encryption_key_requirement_amended.1 ⟨⟨1, 2⟩, ⟨none, some 6⟩, none, none⟩
      none none [] rfl,
    rfl,
    sender_encryption_key_requirement_amended.2 ⟨Response.new_success 1, ⟨none, some 6⟩, none, none⟩
      none none rfl⟩

/-- Helper: the per-recipient key lookup returns one key per
recipient. -/
lemma recipientEncryptionKeys_length (recipients : List XIDDocument) :
    ∀ keys : List Nat, recipientEncryptionKeys recipients = .ok keys →
      keys.length = recipients.length := by
  induction recipients with
  | nil =>
    intro keys h
    simp only [recipientEncryptionKeys] at h
    cases h
    rfl
  | cons r rest ih =>
    intro keys h
    simp only [recipientEncryptionKeys] at h
    cases hk : r.encryption_key with
    | none => rw [hk] at h; cases h
    | some k =>
      rw [hk] at h
      cases hrest : recipientEncryptionKeys rest with
      | error e => rw [hrest] at h; cases h
      | ok ks =>
        rw [hrest] at h
        cases h
        simp [ih ks hrest]

/-- C8: with an empty recipient list, `to_envelope_for_recipients`
returns a signed but unencrypted envelope (no error); with a
non-empty list it applies one outer encryption to the same signed
envelope, carrying one key wrapping per recipient. -/
theorem event_broadcast_and_multi_recipient
    (se : SealedEvent) (vu : Option Int) (sg sk : Nat)
    (hek : se.sender.encryption_key = some sk) :
    ((se.to_envelope_for_recipients vu (some sg) []).map
        (fun e => (isEncrypted e, hasAssertion e kvSigned)) = .ok (false, true))
    ∧ (∀ (r : XIDDocument) (rest : List XIDDocument) (keys : List Nat),
        recipientEncryptionKeys (r :: rest) = .ok keys →
        se.to_envelope_for_recipients vu (some sg) (r :: rest) =
          (se.to_envelope_for_recipients vu (some sg) []).map
            (fun signedEnv => encryptToRecipients signedEnv keys)
        ∧ (se.to_envelope_for_recipients vu (some sg) (r :: rest)).map
            (fun e => (isEncrypted e, wrappedKeys e)) = .ok (true, keys)
        ∧ keys.length = (r :: rest).length) := by
  obtain ⟨ev, sender, st, pc⟩ := se
  simp only at hek
  constructor
  · simp [SealedEvent.to_envelope_for_recipients, hek, signEnv, addAssertion,
      isEncrypted, hasAssertion, assertionsOf, Except.map, kvSigned]
  · intro r rest keys hkeys
    refine ⟨?_, ?_, recipientEncryptionKeys_length (r :: rest) keys hkeys⟩
    · simp [SealedEvent.to_envelope_for_recipients, hek, hkeys, Except.map]
    · simp [SealedEvent.to_envelope_for_recipients, hek, hkeys, Except.map,
        encryptToRecipients, isEncrypted, wrappedKeys]

/-- Witness for C8 at concrete inputs. -/
theorem event_broadcast_and_multi_recipient_witness :
    ((⟨⟨1, 2⟩, ⟨some 5, some 6⟩, none, none⟩ : SealedEvent).sender.encryption_key = some 5)
    ∧ (((⟨⟨1, 2⟩, ⟨some 5, some 6⟩, none, none⟩ : SealedEvent).to_envelope_for_recipients
          none (some 6) []).map
        (fun e => (isEncrypted e, hasAssertion e kvSigned)) = .ok (false, true))
    ∧ (recipientEncryptionKeys [⟨some 9, none⟩, ⟨some 10, none⟩] = .ok [9, 10])
    ∧ ((⟨⟨1, 2⟩, ⟨some 5, some 6⟩, none, none⟩ : SealedEvent).to_envelope_for_recipients
          none (some 6) [⟨some 9, none⟩, ⟨some 10, none⟩] =
        ((⟨⟨1, 2⟩, ⟨some 5, some 6⟩, none, none⟩ : SealedEvent).to_envelope_for_recipients
            none (some 6) []).map
          (fun signedEnv => encryptToRecipients signedEnv [9, 10]))
    ∧ (((⟨⟨1, 2⟩, ⟨some 5, some 6⟩, none, none⟩ : SealedEvent).to_envelope_for_recipients
          none (some 6) [⟨some 9, none⟩, ⟨some 10, none⟩]).map
        (fun e => (isEncrypted e, wrappedKeys e)) = .ok (true, [9, 10]))
    ∧ ([9, 10].length = [(⟨some 9, none⟩ : XIDDocument), ⟨some 10, none⟩].length) :=
  ⟨rfl,
    (event_broadcast_and_multi_recipient ⟨⟨1, 2⟩, ⟨some 5, some 6⟩, none, none⟩
      none 6 5 rfl).1,
    rfl,
    ((event_broadcast_and_multi_recipient ⟨⟨1, 2⟩, ⟨some 5, some 6⟩, none, none⟩
      none 6 5 rfl).2 ⟨some 9, none⟩ [⟨some 10, none⟩] [9, 10] rfl).1,
    ((event_broadcast_and_multi_recipient ⟨⟨1, 2⟩, ⟨some 5, some 6⟩, none, none⟩
      none 6 5 rfl).2 ⟨some 9, none⟩ [⟨some 10, none⟩] [9, 10] rfl).2.1,
    ((event_broadcast_and_multi_recipient ⟨⟨1, 2⟩, ⟨some 5, some 6⟩, none, none⟩
      none 6 5 rfl).2 ⟨some 9, none⟩ [⟨some 10, none⟩] [9, 10] rfl).2.2⟩

/-- C9: `with_state` on a failure or early-failure response is the
panic outcome (modelled as `none`); on a success response it sets the
state; and whenever `with_state` returns a value, that value is a
successful response — no failure response with state is constructible
through this interface. -/
theorem response_with_state_policy :
    (∀ (id : Nat) (sender : XIDDocument) (s : Env),
      (SealedResponse.new_failure id sender).with_state s = none)
    ∧ (∀ (sender : XIDDocument) (s : Env),
      (SealedResponse.new_early_failure sender).with_state s = none)
    ∧ (∀ (id : Nat) (sender : XIDDocument) (s : Env),
      (SealedResponse.new_success id sender).with_state s =
        some ⟨Response.new_success id, sender, some s, none⟩)
    ∧ (∀ (sr sr2 : SealedResponse) (s : Env),
      sr.with_state s = some sr2 →
      sr2.response.isOk = true ∧ sr2 = { sr with state := some s }) := by
  refine ⟨fun id sender s => rfl, fun sender s => rfl, fun id sender s => rfl, ?_⟩
  intro sr sr2 s h
  unfold SealedResponse.with_state at h
  cases hok : sr.response.isOk with
  | false => rw [hok] at h; cases h
  | true =>
    rw [hok] at h
    simp only [if_true] at h
    cases h
    exact ⟨hok, rfl⟩

/-- Witness for C9 at concrete inputs. -/
theorem response_with_state_policy_witness :
    ((SealedResponse.new_failure 1 ⟨some 5, some 6⟩).with_state (Env.leaf 7) = none)
    ∧ ((SealedResponse.new_early_failure ⟨some 5, some 6⟩).with_state (Env.leaf 7) = none)
    ∧ ((SealedResponse.new_success 1 ⟨some 5, some 6⟩).with_state (Env.leaf 7) =
        some ⟨Response.new_success 1, ⟨some 5, some 6⟩, some (Env.leaf 7), none⟩)
    ∧ ((SealedResponse.new_success 1 ⟨some 5, some 6⟩).with_state (Env.leaf 7) =
          some ⟨Response.new_success 1, ⟨some 5, some 6⟩, some (Env.leaf 7), none⟩ →
        (⟨Response.new_success 1, ⟨some 5, some 6⟩, some (Env.leaf 7), none⟩ :
            SealedResponse).response.isOk = true
        ∧ (⟨Response.new_success 1, ⟨some 5, some 6⟩, some (Env.leaf 7), none⟩ :
            SealedResponse) =
          { SealedResponse.new_success 1 ⟨some 5, some 6⟩ with state := some (Env.leaf 7) }) :=
  ⟨response_with_state_policy.1 1 ⟨some 5, some 6⟩ (Env.leaf 7),
    response_with_state_policy.2.1 ⟨some 5, some 6⟩ (Env.leaf 7),
    response_with_state_policy.2.2.1 1 ⟨some 5, some 6⟩ (Env.leaf 7),
    response_with_state_policy.2.2.2 (SealedResponse.new_success 1 ⟨some 5, some 6⟩)
      ⟨Response.new_success 1, ⟨some 5, some 6⟩, some (Env.leaf 7), none⟩ (Env.leaf 7)⟩

/-- C10: `with_optional_state none` never panics — it clears the
state on every response, failure and early-failure included — while
`with_optional_state (some s)` delegates to `with_state` and
therefore hits the same panic on a failure response. -/
theorem response_with_optional_state_none_safe :
    (∀ sr : SealedResponse,
      sr.with_optional_state none = some { sr with state := none })
    ∧ (∀ (sr : SealedResponse) (s : Env),
      sr.with_optional_state (some s) = sr.with_state s)
    ∧ (∀ (id : Nat) (sender : XIDDocument),
      (SealedResponse.new_failure id sender).with_optional_state none =
        some (SealedResponse.new_failure id sender))
    ∧ (∀ (sender : XIDDocument),
      (SealedResponse.new_early_failure sender).with_optional_state none =
        some (SealedResponse.new_early_failure sender))
    ∧ (∀ (id : Nat) (sender : XIDDocument) (s : Env),
      (SealedResponse.new_failure id sender).with_optional_state (some s) = none) :=
  ⟨fun _ => rfl, fun _ _ => rfl, fun _ _ => rfl, fun _ => rfl, fun _ _ _ => rfl⟩

end GSTP
